import Mathlib

/-!
Verification of the OpenMMO realtime server core (src/server) against its
natural-language specification.  The Rust sources are shallowly embedded:

* `f32` / `f64` values are modelled as exact real numbers (`ℝ`); a Rust
  float-to-integer `as` cast is modelled by `Nat.floor`, which agrees with
  the saturating Rust cast for the non-negative, in-range values that occur
  in the claims (negative arguments floor to 0, as the Rust cast saturates
  to 0).
* `u32` / `u64` become `ℕ`, `i32` becomes `ℤ`.
* `HashMap` becomes an association list (first match wins), `HashSet`
  becomes a duplicate-free list, `VecDeque` a list.
* Rust `Result` becomes `Except String`, `Option` becomes `Option`.

Each definition is a direct translation of the Rust function named in its
doc comment.
-/

namespace MMO

/-- Value of f32::EPSILON, which is 2 to the power -23. -/
noncomputable def f32Epsilon : ℝ := 1 / 8388608

/-- Association-list lookup, modelling HashMap::get (first match wins). -/
def alookup {α : Type} (k : ℕ) : List (ℕ × α) → Option α
  | [] => none
  | (k', v) :: rest => if k' = k then some v else alookup k rest

/-- Pointwise update of every entry carrying key `k`, modelling in-place
mutation through HashMap::get_mut. -/
def aupdate {α : Type} (k : ℕ) (f : α → α) : List (ℕ × α) → List (ℕ × α) :=
  List.map fun p => if p.1 = k then (p.1, f p.2) else p

/-- HashMap::insert: overwrite the existing entry, or append a new one. -/
def ainsert {α : Type} (k : ℕ) (v : α) (l : List (ℕ × α)) : List (ℕ × α) :=
  if (alookup k l).isSome then aupdate k (fun _ => v) l else l ++ [(k, v)]

/-- HashMap::remove (drops every entry with the key). -/
def aremove {α : Type} (k : ℕ) (l : List (ℕ × α)) : List (ℕ × α) :=
  l.filter fun p => p.1 != k

/-- HashSet::insert on the model of a set as a duplicate-free list. -/
def sinsert (k : ℕ) (l : List ℕ) : List ℕ :=
  if l.contains k then l else k :: l

/-- HashSet::remove. -/
def sremove (k : ℕ) (l : List ℕ) : List ℕ :=
  l.filter fun x => x != k

/-- Decimal digit accumulator for `parseU32`. -/
def parseDigits : List Char → ℕ → Option ℕ
  | [], acc => some acc
  | c :: rest, acc =>
    if c.isDigit then parseDigits rest (acc * 10 + (c.toNat - 48)) else none

/-- Model of Rust `str::parse::<u32>`: all-digit strings parse to their
decimal value, anything else (including the empty string) fails.  Written
by structural recursion on the character list so that concrete zone labels
evaluate. -/
def parseU32 (s : String) : Option ℕ :=
  match s.data with
  | [] => none
  | l => parseDigits l 0

/-! ## Components (src/server/src/entities/components.rs) -/

/-- Position component: spatial location plus yaw in radians. -/
structure Position where
  x : ℝ
  y : ℝ
  z : ℝ
  rotation : ℝ

/-- Movement component: velocity, speed limits and the moving flag. -/
structure Movement where
  velocityX : ℝ
  velocityY : ℝ
  velocityZ : ℝ
  speed : ℝ
  maxSpeed : ℝ
  isMoving : Bool

/-- Health component: current and maximum hit points plus regen per second. -/
structure Health where
  current : ℕ
  maximum : ℕ
  regenerationRate : ℝ

/-- Combat component. -/
structure Combat where
  attackPower : ℕ
  defense : ℕ
  attackRange : ℝ
  attackSpeed : ℝ
  lastAttackTime : ℝ

/-- AI state variants (src/server/src/entities/components.rs). -/
inductive AiState where
  | idle : AiState
  | patrolling (waypoints : List (ℝ × ℝ × ℝ)) (currentWaypoint : ℕ) : AiState
  | chasing (targetId : ℕ) : AiState
  | attacking (targetId : ℕ) : AiState
  | fleeing (targetId : ℕ) : AiState
  | returning (homePosition : ℝ × ℝ × ℝ) : AiState

/-- AI component. -/
structure Ai where
  state : AiState
  aggroRange : ℝ
  leashRange : ℝ
  homePosition : ℝ × ℝ × ℝ
  lastStateChange : ℝ

/-- Entity archetypes (src/server/src/entities/entities.rs). -/
inductive EntityType where
  | player : EntityType
  | mob : EntityType
  | npc : EntityType
  | worldObject : EntityType
deriving DecidableEq

/-- The composite entity record.  The components that no operation modelled
here ever reads (abilities, social, inventory, equipment, progression,
quest state, appearance, network sync) are omitted from the embedding. -/
structure Entity where
  id : ℕ
  entityType : EntityType
  name : String
  position : Option Position
  health : Option Health
  movement : Option Movement
  combat : Option Combat
  ai : Option Ai

/-- Entity::new_player (src/server/src/entities/entities.rs lines 45-112). -/
def Entity.newPlayer (id : ℕ) (name : String) : Entity where
  id := id
  entityType := .player
  name := name
  position := some ⟨0, 0, 0, 0⟩
  health := some ⟨100, 100, 1⟩
  movement := some ⟨0, 0, 0, 5, 8, false⟩
  combat := some ⟨10, 5, 2, 1, 0⟩
  ai := none

/-- Entity::new_mob (src/server/src/entities/entities.rs lines 115-179). -/
def Entity.newMob (id : ℕ) (name : String) (level : ℕ) : Entity :=
  let baseHealth := 50 + level * 20
  let baseAttack := 5 + level * 2
  { id := id
    entityType := .mob
    name := name
    position := some ⟨0, 0, 0, 0⟩
    health := some ⟨baseHealth, baseHealth, 0.5⟩
    movement := some ⟨0, 0, 0, 3, 6, false⟩
    combat := some ⟨baseAttack, baseAttack / 2, 1.5, 0.8, 0⟩
    ai := some ⟨.idle, 8, 25, (0, 0, 0), 0⟩ }

/-- Entity::is_alive: an entity with no health component counts as alive. -/
def Entity.isAlive (e : Entity) : Bool :=
  match e.health with
  | none => true
  | some h => decide (0 < h.current)

/-- Entity::can_move. -/
def Entity.canMove (e : Entity) : Bool :=
  e.movement.isSome && e.isAlive

/-- Entity::can_attack. -/
def Entity.canAttack (e : Entity) : Bool :=
  e.combat.isSome && e.isAlive

/-- Entity::distance_to; `none` models the f32::INFINITY returned when a
position component is missing. -/
noncomputable def Entity.distanceTo (e other : Entity) : Option ℝ :=
  match e.position, other.position with
  | some p1, some p2 =>
    let dx := p1.x - p2.x
    let dy := p1.y - p2.y
    let dz := p1.z - p2.z
    some (Real.sqrt (dx * dx + dy * dy + dz * dz))
  | _, _ => none

/-! ## Combat system (src/server/src/simulation/combat_system.rs) -/

/-- Combat action variants. -/
inductive CombatAction where
  | autoAttack (targetId : ℕ) : CombatAction
  | ability (abilityId : ℕ) (targetId : ℕ) : CombatAction

/-- Target of either combat action variant. -/
def CombatAction.targetId : CombatAction → ℕ
  | .autoAttack t => t
  | .ability _ t => t

/-- Combat result record returned by process_combat_action. -/
structure CombatResult where
  success : Bool
  damageDealt : ℕ
  targetKilled : Bool
  errorMessage : Option String
deriving DecidableEq

/-- Failure CombatResult with a message, as built at every early return of
process_combat_action. -/
def failResult (msg : String) : CombatResult :=
  ⟨false, 0, false, some msg⟩

/-- CombatSystem::validate_attack.  The hard-coded `current_time = 0.0` of
the source (marked TODO there) is kept as written.  The out-of-range error
text drops the interpolated numbers of the source format string. -/
noncomputable def validateAttack (attacker target : Entity) (action : CombatAction) :
    Except String Unit :=
  if ¬ target.isAlive then .error "Target is already dead"
  else
    match attacker.combat with
    | none => .error "panic: attacker combat component missing"
    | some combat =>
      match attacker.distanceTo target with
      | none => .error "Target is out of range"
      | some distance =>
        if distance > combat.attackRange then .error "Target is out of range"
        else
          let currentTime : ℝ := 0
          let timeSinceLastAttack := currentTime - combat.lastAttackTime
          let selfCheck : Except String Unit :=
            if attacker.id = target.id then .error "Cannot attack self" else .ok ()
          match action with
          | .autoAttack _ =>
            if timeSinceLastAttack < 1 / combat.attackSpeed then .error "Attack is on cooldown"
            else selfCheck
          | .ability _ _ => selfCheck

/-- CombatSystem::calculate_damage.  The final `as u32` cast of the source
truncates the f32 value toward zero; as the value is at least 1 this is
`Nat.floor`. -/
noncomputable def calculateDamage (attacker target : Entity) (action : CombatAction) : ℕ :=
  match attacker.combat with
  | none => 0
  | some attackerCombat =>
    let baseDamage : ℕ :=
      match action with
      | .autoAttack _ => attackerCombat.attackPower
      | .ability _ _ => attackerCombat.attackPower * 2
    let defense : ℕ :=
      match target.combat with
      | none => 0
      | some c => c.defense
    let damageReduction : ℝ := min ((defense : ℝ) * 0.5) ((baseDamage : ℝ) * 0.75)
    ⌊max ((baseDamage : ℝ) - damageReduction) 1⌋₊

/-- CombatSystem::apply_damage: returns the damaged entity and whether the
target was killed. -/
def applyDamage (target : Entity) (damage : ℕ) : Entity × Bool :=
  match target.health with
  | none => (target, false)
  | some health =>
    if health.current ≤ damage then
      ({ target with health := some { health with current := 0 } }, true)
    else
      ({ target with health := some { health with current := health.current - damage } }, false)

/-! ## Movement system (src/server/src/simulation/movement_system.rs) -/

/-- Movement intent record. -/
structure MovementIntent where
  playerId : ℕ
  targetX : ℝ
  targetY : ℝ
  targetZ : ℝ
  speedModifier : ℝ
  stopMovement : Bool
  rotationY : ℝ

/-- MovementSystem::MAX_DISTANCE_FACTOR. -/
def maxDistanceFactor : ℝ := 5

/-- Model of the four-quadrant arctangent f32::atan2 over exact reals:
`atan2 y x` is the angle of the point `(x, y)`. -/
noncomputable def atan2 (y x : ℝ) : ℝ :=
  if 0 < x then Real.arctan (y / x)
  else if x < 0 then
    (if 0 ≤ y then Real.arctan (y / x) + Real.pi else Real.arctan (y / x) - Real.pi)
  else
    (if 0 < y then Real.pi / 2 else if y < 0 then -(Real.pi / 2) else 0)

/-- MovementSystem::clamp_intent. -/
noncomputable def clampIntent (e : Entity) (intent : MovementIntent) : MovementIntent :=
  match e.movement, e.position with
  | some movement, some position =>
    let dx := intent.targetX - position.x
    let dy := intent.targetY - position.y
    let dz := intent.targetZ - position.z
    let distance := Real.sqrt (dx * dx + dy * dy + dz * dz)
    let maxDistancePerTick := movement.maxSpeed * intent.speedModifier * maxDistanceFactor / 20
    if distance > maxDistancePerTick ∧ distance > 0 then
      let scale := maxDistancePerTick / distance
      { intent with
        targetX := position.x + dx * scale
        targetY := position.y + dy * scale
        targetZ := position.z + dz * scale }
    else intent
  | _, _ => intent

/-- MovementSystem::validate_movement.  The distance-exceeded error text
drops the interpolated numbers of the source format string. -/
noncomputable def validateMovement (e : Entity) (intent : MovementIntent) :
    Except String Unit :=
  if ¬ e.canMove then .error "Entity cannot move"
  else if ¬ e.isAlive then .error "Entity is not alive"
  else
    match e.movement, e.position with
    | some movement, some position =>
      let dx := intent.targetX - position.x
      let dy := intent.targetY - position.y
      let dz := intent.targetZ - position.z
      let distance := Real.sqrt (dx * dx + dy * dy + dz * dz)
      let maxDistancePerTick := movement.maxSpeed * intent.speedModifier * maxDistanceFactor / 20
      if distance > maxDistancePerTick + f32Epsilon then
        .error "Movement distance exceeds maximum per tick"
      else .ok ()
    | _, _ => .error "panic: movement or position component missing"

/-- MovementSystem::apply_movement.  The rotation is first set to the
client-supplied facing, then overwritten with the movement direction
whenever the direction vector is non-zero (lines 114-140 of the source). -/
noncomputable def applyMovement (e : Entity) (intent : MovementIntent) : Entity :=
  let e1 :=
    match e.position with
    | some position => { e with position := some { position with rotation := intent.rotationY } }
    | none => e
  match e1.position, e1.movement with
  | some position, some movement =>
    let dx := intent.targetX - position.x
    let dy := intent.targetY - position.y
    let dz := intent.targetZ - position.z
    let distance := Real.sqrt (dx * dx + dy * dy + dz * dz)
    if distance > 0 then
      let speed := movement.speed * intent.speedModifier
      { e1 with
        position := some { position with rotation := atan2 (-dx) (-dz) }
        movement := some { movement with
          velocityX := dx / distance * speed
          velocityY := dy / distance * speed
          velocityZ := dz / distance * speed
          isMoving := true } }
    else e1
  | _, _ => e1

/-- Entity-level effect of MovementSystem::stop_movement once the zone and
entity lookups have succeeded: zero the velocity and clear the moving flag. -/
def stopMovementEntity (e : Entity) : Entity :=
  match e.movement with
  | some movement =>
    { e with movement := some { movement with
        velocityX := 0, velocityY := 0, velocityZ := 0, isMoving := false } }
  | none => e

/-- Entity-level body of MovementSystem::process_movement_intent (lines
57-73 of the source), after the zone and entity lookups: on a stop intent
write the facing and stop; otherwise clamp, validate, then apply. -/
noncomputable def processEntityMovement (e : Entity) (intent : MovementIntent) :
    Except String Entity :=
  if intent.stopMovement then
    let e1 :=
      match e.position with
      | some position => { e with position := some { position with rotation := intent.rotationY } }
      | none => e
    .ok (stopMovementEntity e1)
  else
    let clampedIntent := clampIntent e intent
    match validateMovement e clampedIntent with
    | .error msg => .error msg
    | .ok _ => .ok (applyMovement e clampedIntent)

/-! ## Entity manager (src/server/src/entities/system.rs) -/

/-- The per-zone entity manager: an id-indexed store plus the id counter. -/
structure EntityManager where
  entities : List (ℕ × Entity)
  nextId : ℕ

/-- EntityManager::new. -/
def EntityManager.new : EntityManager := ⟨[], 1⟩

/-- EntityManager::generate_id: returns the current counter value and the
manager with the counter advanced. -/
def EntityManager.generateId (m : EntityManager) : ℕ × EntityManager :=
  (m.nextId, { m with nextId := m.nextId + 1 })

/-- EntityManager::add_entity. -/
def EntityManager.addEntity (m : EntityManager) (e : Entity) : EntityManager :=
  { m with entities := ainsert e.id e m.entities }

/-- EntityManager::remove_entity. -/
def EntityManager.removeEntity (m : EntityManager) (id : ℕ) : EntityManager :=
  { m with entities := aremove id m.entities }

/-- EntityManager::get_entity. -/
def EntityManager.getEntity (m : EntityManager) (id : ℕ) : Option Entity :=
  alookup id m.entities

/-- EntityManager::get_entities_in_range, by squared-distance comparison;
entities without a position are excluded. -/
noncomputable def entitiesInRange (entities : List (ℕ × Entity)) (center : ℝ × ℝ × ℝ)
    (range : ℝ) : List Entity :=
  (entities.map Prod.snd).filter fun e =>
    match e.position with
    | some pos =>
      let dx := pos.x - center.1
      let dy := pos.y - center.2.1
      let dz := pos.z - center.2.2
      decide (dx * dx + dy * dy + dz * dz ≤ range * range)
    | none => false

/-- EntityManager::update_ai (src/server/src/entities/system.rs lines
144-259): drives the AI state machine and may overwrite the movement
component; `mgr` is the neighbor store the source reads through `self`. -/
noncomputable def updateAi (mgr : List (ℕ × Entity)) (e : Entity) (ai : Ai) (dt : ℝ) : Entity :=
  match ai.state with
  | .idle =>
    match e.position with
    | some position =>
      let nearbyPlayers :=
        (entitiesInRange mgr (position.x, position.y, position.z) ai.aggroRange).filter
          fun t => t.entityType = EntityType.player
      match nearbyPlayers.head? with
      | some target =>
        { e with ai := some { ai with state := .chasing target.id, lastStateChange := dt } }
      | none => { e with ai := some ai }
    | none => { e with ai := some ai }
  | .chasing targetId =>
    match alookup targetId mgr with
    | some target =>
      match e.position, target.position with
      | some entityPos, some targetPos =>
        let distance := Real.sqrt
          ((entityPos.x - targetPos.x) * (entityPos.x - targetPos.x) +
           (entityPos.y - targetPos.y) * (entityPos.y - targetPos.y) +
           (entityPos.z - targetPos.z) * (entityPos.z - targetPos.z))
        let homeDistance := Real.sqrt
          ((entityPos.x - ai.homePosition.1) * (entityPos.x - ai.homePosition.1) +
           (entityPos.y - ai.homePosition.2.1) * (entityPos.y - ai.homePosition.2.1) +
           (entityPos.z - ai.homePosition.2.2) * (entityPos.z - ai.homePosition.2.2))
        if homeDistance > ai.leashRange then
          { e with ai := some { ai with
              state := .returning ai.homePosition, lastStateChange := dt } }
        else if distance ≤ (match e.combat with | none => 1.5 | some c => c.attackRange) then
          { e with ai := some { ai with state := .attacking targetId, lastStateChange := dt } }
        else
          match e.movement with
          | some movement =>
            let dx := targetPos.x - entityPos.x
            let dy := targetPos.y - entityPos.y
            let dz := targetPos.z - entityPos.z
            let length := Real.sqrt (dx * dx + dy * dy + dz * dz)
            if length > 0 then
              { e with
                ai := some ai
                movement := some { movement with
                  velocityX := dx / length * movement.speed
                  velocityY := dy / length * movement.speed
                  velocityZ := dz / length * movement.speed
                  isMoving := true } }
            else { e with ai := some ai }
          | none => { e with ai := some ai }
      | _, _ => { e with ai := some { ai with state := .idle, lastStateChange := dt } }
    | none => { e with ai := some { ai with state := .idle, lastStateChange := dt } }
  | .attacking targetId =>
    match alookup targetId mgr with
    | some target =>
      let distance := e.distanceTo target
      let threshold := match e.combat with | none => 2.0 | some c => c.attackRange * 1.5
      let tooFar : Bool := match distance with | none => true | some d => decide (d > threshold)
      if tooFar then
        { e with ai := some { ai with state := .chasing targetId, lastStateChange := dt } }
      else { e with ai := some ai }
    | none => { e with ai := some { ai with state := .idle, lastStateChange := dt } }
  | .returning homePosition =>
    match e.position with
    | some position =>
      let dx := homePosition.1 - position.x
      let dy := homePosition.2.1 - position.y
      let dz := homePosition.2.2 - position.z
      let distance := Real.sqrt (dx * dx + dy * dy + dz * dz)
      if distance < 1 then
        { e with ai := some { ai with state := .idle, lastStateChange := dt } }
      else
        match e.movement with
        | some movement =>
          { e with
            ai := some ai
            movement := some { movement with
              velocityX := dx / distance * movement.speed
              velocityY := dy / distance * movement.speed
              velocityZ := dz / distance * movement.speed
              isMoving := true } }
        | none => { e with ai := some ai }
    | none => { e with ai := some ai }
  | .patrolling _ _ =>
    { e with ai := some { ai with state := .idle, lastStateChange := dt } }
  | .fleeing _ =>
    { e with ai := some { ai with state := .idle, lastStateChange := dt } }

/-- EntityManager::update_entity (src/server/src/entities/system.rs lines
102-141): health regeneration, velocity integration with damping and the
low-velocity stop, then the AI update.  The `as u32` cast of the regen
amount is `Nat.floor` (the Rust float-to-unsigned cast saturates negative
values to 0, as `Nat.floor` does). -/
noncomputable def updateEntity (mgr : List (ℕ × Entity)) (e : Entity) (dt : ℝ) : Entity :=
  let e1 :=
    match e.health with
    | some health =>
      if health.current < health.maximum then
        let regenAmount := ⌊health.regenerationRate * dt⌋₊
        { e with health := some { health with
            current := min (health.current + regenAmount) health.maximum } }
      else e
    | none => e
  let e2 :=
    match e1.position, e1.movement with
    | some position, some movement =>
      if movement.isMoving then
        let px := position.x + movement.velocityX * dt
        let py := position.y + movement.velocityY * dt
        let pz := position.z + movement.velocityZ * dt
        let damping : ℝ := 0.9
        let vx := movement.velocityX * damping
        let vy := movement.velocityY * damping
        let vz := movement.velocityZ * damping
        if |vx| < 0.01 ∧ |vy| < 0.01 ∧ |vz| < 0.01 then
          { e1 with
            position := some { position with x := px, y := py, z := pz }
            movement := some { movement with
              velocityX := 0, velocityY := 0, velocityZ := 0, isMoving := false } }
        else
          { e1 with
            position := some { position with x := px, y := py, z := pz }
            movement := some { movement with velocityX := vx, velocityY := vy, velocityZ := vz } }
      else e1
    | _, _ => e1
  match e2.ai with
  | some ai => updateAi mgr e2 ai dt
  | none => e2

/-- EntityManager::update_entities: each stored entity is updated in turn;
neighbor lookups during an update see the partially updated store. -/
noncomputable def EntityManager.updateEntities (m : EntityManager) (dt : ℝ) : EntityManager :=
  let ids := m.entities.map Prod.fst
  let step := fun acc id =>
    match alookup id acc with
    | some e => aupdate id (fun _ => updateEntity acc e dt) acc
    | none => acc
  { m with entities := ids.foldl step m.entities }

/-- EntityManager::create_test_mob.  In src/server/src/world/zone.rs the
call sites pass only (name, x, z); the level parameter of the signature in
system.rs is absent there, so it is taken as 1.  No claim depends on the
level-derived stats. -/
def EntityManager.createTestMob (m : EntityManager) (name : String) (x z : ℝ)
    (level : ℕ) : ℕ × EntityManager :=
  let (id, m1) := m.generateId
  let mob := Entity.newMob id name level
  let mob := { mob with position := some ⟨x, 0, z, 0⟩ }
  let mob :=
    match mob.ai with
    | some ai => { mob with ai := some { ai with homePosition := (x, 0, z) } }
    | none => mob
  (id, m1.addEntity mob)

/-! ## Zones and world state (src/server/src/world) -/

/-- Axis-aligned zone bounds. -/
structure ZoneBounds where
  minX : ℝ
  maxX : ℝ
  minY : ℝ
  maxY : ℝ
  minZ : ℝ
  maxZ : ℝ

/-- A game zone: id, name, bounds, entity store and active player set. -/
structure Zone where
  id : ℕ
  name : String
  bounds : ZoneBounds
  entities : EntityManager
  activePlayers : List ℕ

/-- Zone::new. -/
def Zone.new (id : ℕ) (name : String) (bounds : ZoneBounds) : Zone :=
  ⟨id, name, bounds, EntityManager.new, []⟩

/-- Zone::add_player. -/
def Zone.addPlayer (z : Zone) (playerId : ℕ) : Zone :=
  { z with activePlayers := sinsert playerId z.activePlayers }

/-- Zone::remove_player. -/
def Zone.removePlayer (z : Zone) (playerId : ℕ) : Zone :=
  { z with activePlayers := sremove playerId z.activePlayers }

/-- Zone::create_starter_zone: zone 1 pre-populated with three test mobs,
which receive entity ids 1, 2 and 3 from the zone-local counter. -/
def Zone.createStarterZone : Zone :=
  let zone := Zone.new 1 "Starter Zone" ⟨-100, 100, -10, 50, -100, 100⟩
  let (_, m1) := zone.entities.createTestMob "Goblin" 15 15 1
  let (_, m2) := m1.createTestMob "Orc" (-15) 15 1
  let (_, m3) := m2.createTestMob "Wolf" 0 25 1
  { zone with entities := m3 }

/-- Modelled from the spec: Zone::create_second_zone is called by
WorldState::new but its body is absent from the sources; per spec section
4.3 additional zones are created via the same constructor, so zone 2 is
Zone.new with id 2, a fresh entity manager (id counter starting at 1) and
no pre-populated entities.  The bounds reflect the portal thresholds of
section 4.3 (x = 95 into the zone at incoming x = -95, exit at x < -145). -/
def Zone.createSecondZone : Zone :=
  Zone.new 2 "Second Zone" ⟨-150, 100, -10, 50, -100, 100⟩

/-- The world state: zones, the player-to-zone map and the intent queues. -/
structure WorldState where
  zones : List (ℕ × Zone)
  playerZoneMap : List (ℕ × ℕ)
  movementIntents : List MovementIntent
  combatActions : List (ℕ × CombatAction)

/-- WorldState::new: the starter zone and the second zone. -/
def WorldState.new : WorldState :=
  let starter := Zone.createStarterZone
  let second := Zone.createSecondZone
  ⟨ainsert starter.id starter (ainsert second.id second []), [], [], []⟩

/-- WorldState::get_zone. -/
def WorldState.getZone (w : WorldState) (zoneId : ℕ) : Option Zone :=
  alookup zoneId w.zones

/-- WorldState::get_player_zone_id. -/
def WorldState.getPlayerZoneId (w : WorldState) (playerId : ℕ) : Option ℕ :=
  alookup playerId w.playerZoneMap

/-- WorldState::ensure_player_zone_mapping: return the mapped zone, or scan
the zones for the entity and reinstate the mapping. -/
def WorldState.ensurePlayerZoneMapping (w : WorldState) (playerId : ℕ) :
    WorldState × Option ℕ :=
  match alookup playerId w.playerZoneMap with
  | some zoneId => (w, some zoneId)
  | none =>
    match w.zones.find? (fun p => (alookup playerId p.2.entities.entities).isSome) with
    | some (zoneId, _) =>
      ({ w with playerZoneMap := ainsert playerId zoneId w.playerZoneMap }, some zoneId)
    | none => (w, none)

/-- WorldState::resolve_zone_id: numeric id if it names a zone, else
case-insensitive name match with underscore-to-space normalization
(ASCII case folding modelled by String.toLower), else zone 1. -/
def WorldState.resolveZoneIdByName (w : WorldState) (zoneLabel : String) : ℕ :=
  let normalized := zoneLabel.replace "_" " "
  let found := w.zones.find? fun p =>
    p.2.name.toLower == zoneLabel.toLower || p.2.name.toLower == normalized.toLower
  match found with
  | some (id, _) => id
  | none => 1

/-- WorldState::resolve_zone_id: numeric id if it names a zone, else the
name-matching fallback, else zone 1. -/
def WorldState.resolveZoneId (w : WorldState) (zoneLabel : String) : ℕ :=
  match parseU32 zoneLabel with
  | some id =>
    if (alookup id w.zones).isSome then id else w.resolveZoneIdByName zoneLabel
  | none => w.resolveZoneIdByName zoneLabel

/-- WorldState::spawn_player_entity (src/server/src/world/world_state.rs
lines 82-114): allocate an id from the zone-local counter, build a player,
overwrite pose and health, store it, mark it active, record the mapping.
The requested health pair is i32; current is clamped below by 0 and maximum
below by 1, then cast to u32. -/
def WorldState.spawnPlayerEntity (w : WorldState) (name : String) (zoneLabel : String)
    (position : ℝ × ℝ × ℝ) (rotation : ℝ) (health : ℤ × ℤ) :
    Except String (ℕ × WorldState) :=
  let zoneId := w.resolveZoneId zoneLabel
  match alookup zoneId w.zones with
  | none => .error "Zone not found"
  | some zone =>
    let (entityId, m1) := zone.entities.generateId
    let player := Entity.newPlayer entityId name
    let player :=
      match player.position with
      | some pos =>
        let pos' := { pos with
          x := position.1
          y := position.2.1
          z := position.2.2
          rotation := rotation }
        { player with position := some pos' }
      | none => player
    let player :=
      match player.health with
      | some h =>
        let h' := { h with
          current := (max health.1 0).toNat
          maximum := (max health.2 1).toNat }
        { player with health := some h' }
      | none => player
    let zone' := Zone.addPlayer { zone with entities := m1.addEntity player } entityId
    let zones' := aupdate zoneId (fun _ => zone') w.zones
    let map' := ainsert entityId zoneId w.playerZoneMap
    .ok (entityId, { w with zones := zones', playerZoneMap := map' })

/-- WorldState::move_player_to_zone_with_position (lines 211-241): remove
the player from the active set of its current zone and teleport the entity
inside that same store, then mark it active in the new zone and rewrite the
map.  The entity record itself is not moved between stores. -/
def WorldState.movePlayerToZoneWithPosition (w : WorldState) (playerId newZoneId : ℕ)
    (position : ℝ × ℝ × ℝ) : Except String WorldState :=
  let teleport := fun (e : Entity) =>
    match e.position with
    | some pos =>
      let pos' := { pos with x := position.1, y := position.2.1, z := position.2.2 }
      { e with position := some pos' }
    | none => e
  let leaveSource := fun (currentZone : Zone) =>
    let z1 := currentZone.removePlayer playerId
    let store' := aupdate playerId teleport z1.entities.entities
    { z1 with entities := { z1.entities with entities := store' } }
  let w1 :=
    match alookup playerId w.playerZoneMap with
    | some currentZoneId =>
      match alookup currentZoneId w.zones with
      | some _ => { w with zones := aupdate currentZoneId leaveSource w.zones }
      | none => w
    | none => w
  match alookup newZoneId w1.zones with
  | some _ =>
    let zones' := aupdate newZoneId (fun z => z.addPlayer playerId) w1.zones
    let map' := ainsert playerId newZoneId w1.playerZoneMap
    .ok { w1 with zones := zones', playerZoneMap := map' }
  | none => .error "Zone does not exist"

/-- WorldState::check_zone_transitions (lines 177-209): collect every
active player past a portal threshold, then apply the moves; a failed move
is logged and otherwise ignored. -/
noncomputable def WorldState.checkZoneTransitions (w : WorldState) : WorldState :=
  let transitions := w.zones.foldr
    (fun (zp : ℕ × Zone) acc =>
      zp.2.activePlayers.foldr
        (fun playerId acc' =>
          match alookup playerId zp.2.entities.entities with
          | some entity =>
            match entity.position with
            | some position =>
              if zp.1 = 1 ∧ position.x > 95 then
                (playerId, 2, ((-95 : ℝ), position.y, position.z)) :: acc'
              else if zp.1 = 2 ∧ position.x < -145 then
                (playerId, 1, ((95 : ℝ), position.y, position.z)) :: acc'
              else acc'
            | none => acc'
          | none => acc')
        acc)
    []
  transitions.foldl
    (fun world (t : ℕ × ℕ × (ℝ × ℝ × ℝ)) =>
      match world.movePlayerToZoneWithPosition t.1 t.2.1 t.2.2 with
      | .ok w' => w'
      | .error _ => world)
    w

/-- WorldState::remove_player (lines 274-281). -/
def WorldState.removePlayer (w : WorldState) (playerId : ℕ) : WorldState :=
  let dropFromZone := fun (zone : Zone) =>
    let z1 := zone.removePlayer playerId
    { z1 with entities := z1.entities.removeEntity playerId }
  match alookup playerId w.playerZoneMap with
  | some zoneId =>
    { w with
      playerZoneMap := aremove playerId w.playerZoneMap
      zones := aupdate zoneId dropFromZone w.zones }
  | none => w

/-- WorldState::update (lines 168-175): advance every zone, then evaluate
zone transitions. -/
noncomputable def WorldState.update (w : WorldState) (dt : ℝ) : WorldState :=
  let zones' := w.zones.map fun p =>
    (p.1, { p.2 with entities := p.2.entities.updateEntities dt })
  let w1 := { w with zones := zones' }
  w1.checkZoneTransitions

/-- MovementSystem::process_movement_intent at world level (lines 29-74):
resolve the zone through ensure_player_zone_mapping, look the entity up,
run the entity-level processing and write the entity back. -/
noncomputable def processMovementIntent (w : WorldState) (intent : MovementIntent) :
    Except String WorldState :=
  match w.ensurePlayerZoneMapping intent.playerId with
  | (_, none) => .error "Player not in any zone"
  | (w1, some zoneId) =>
    match alookup zoneId w1.zones with
    | none => .error "Zone not found"
    | some zone =>
      match alookup intent.playerId zone.entities.entities with
      | none => .error "Player entity not found"
      | some entity =>
        match processEntityMovement entity intent with
        | .error msg => .error msg
        | .ok entity' =>
          let writeBack := fun (z : Zone) =>
            let store' := aupdate intent.playerId (fun _ => entity') z.entities.entities
            { z with entities := { z.entities with entities := store' } }
          .ok { w1 with zones := aupdate zoneId writeBack w1.zones }

/-- CombatSystem::process_combat_action (src/server/src/simulation/
combat_system.rs lines 35-128): resolve zone, attacker and target, validate
the attack, then calculate and apply damage, writing the target back. -/
noncomputable def processCombatAction (w : WorldState) (attackerId : ℕ)
    (action : CombatAction) : WorldState × CombatResult :=
  match w.getPlayerZoneId attackerId with
  | none => (w, failResult "Attacker not in any zone")
  | some zoneId =>
    match alookup zoneId w.zones with
    | none => (w, failResult "Zone not found")
    | some zone =>
      match alookup attackerId zone.entities.entities with
      | none => (w, failResult "Attacker entity not found")
      | some attacker =>
        if ¬ attacker.canAttack then (w, failResult "Attacker cannot attack")
        else
          match alookup action.targetId zone.entities.entities with
          | none => (w, failResult "Target entity not found")
          | some target =>
            match validateAttack attacker target action with
            | .error msg => (w, failResult msg)
            | .ok _ =>
              let damage := calculateDamage attacker target action
              let (target', killed) := applyDamage target damage
              let writeBack := fun (z : Zone) =>
                let store' := aupdate action.targetId (fun _ => target') z.entities.entities
                { z with entities := { z.entities with entities := store' } }
              ({ w with zones := aupdate zoneId writeBack w.zones },
               ⟨true, damage, killed, none⟩)

/-! ## Snapshot delta suppression (src/server/src/simulation/tick_loop.rs) -/

/-- Position delta-suppression epsilon of build_world_snapshot. -/
noncomputable def posEpsilon : ℝ := 0.05

/-- Yaw delta-suppression epsilon of build_world_snapshot. -/
noncomputable def rotEpsilon : ℝ := 0.01

/-- Pose quadruple stored in the LAST_SENT baseline table. -/
def poseOf (p : Position) : ℝ × ℝ × ℝ × ℝ :=
  (p.x, p.y, p.z, p.rotation)

/-- The pose differs from the baseline entry by more than an epsilon on
some axis (strict comparisons, as in the source). -/
noncomputable def poseBeyondEps (p : Position) (b : ℝ × ℝ × ℝ × ℝ) : Prop :=
  |p.x - b.1| > posEpsilon ∨ |p.y - b.2.1| > posEpsilon ∨
  |p.z - b.2.2.1| > posEpsilon ∨ |p.rotation - b.2.2.2| > rotEpsilon

noncomputable instance (p : Position) (b : ℝ × ℝ × ℝ × ℝ) : Decidable (poseBeyondEps p b) := by
  unfold poseBeyondEps
  infer_instance

/-- One entity of build_world_snapshot (tick_loop.rs lines 158-179): thread
the process-global LAST_SENT baseline table and decide inclusion.  The
source inserts the current pose on first sight and then compares against
the entry, so a first-seen entity compares equal and is omitted; this is
written here as the direct case split on the lookup. -/
noncomputable def snapshotStep (baseline : List (ℕ × (ℝ × ℝ × ℝ × ℝ))) (e : Entity) :
    List (ℕ × (ℝ × ℝ × ℝ × ℝ)) × Bool :=
  match e.position with
  | none => (baseline, false)
  | some p =>
    match alookup e.id baseline with
    | none => (ainsert e.id (poseOf p) baseline, false)
    | some entry =>
      if poseBeyondEps p entry then (aupdate e.id (fun _ => poseOf p) baseline, true)
      else (baseline, false)

/-- The entity-list fold of build_world_snapshot: final baseline table and
the ids included in the snapshot. -/
noncomputable def buildSnapshotEntities (baseline : List (ℕ × (ℝ × ℝ × ℝ × ℝ))) :
    List Entity → List (ℕ × (ℝ × ℝ × ℝ × ℝ)) × List ℕ
  | [] => (baseline, [])
  | e :: rest =>
    let step := snapshotStep baseline e
    let restResult := buildSnapshotEntities step.1 rest
    (restResult.1, if step.2 then e.id :: restResult.2 else restResult.2)

/-! ## Spec-side formulas and scenario constants -/

/-- Regeneration formula exactly as the spec words it (real-valued, no
truncation), for comparison against update_entity. -/
noncomputable def specRegenFormula (current maximum : ℕ) (rate dt : ℝ) : ℝ :=
  min (maximum : ℝ) ((current : ℝ) + rate * dt)

/-- Damage formula exactly as the spec words it (real-valued, no
truncation), for comparison against calculate_damage. -/
noncomputable def specDamageFormula (base defense : ℕ) : ℝ :=
  max ((base : ℝ) - min ((defense : ℝ) * 0.5) ((base : ℝ) * 0.75)) 1

/-- The entity record spawn_player_entity stores: Entity::new_player with
the pose and health fields overwritten from the request. -/
def spawnedPlayer (entityId : ℕ) (name : String) (position : ℝ × ℝ × ℝ) (rotation : ℝ)
    (health : ℤ × ℤ) : Entity :=
  ⟨entityId, .player, name,
   some ⟨position.1, position.2.1, position.2.2, rotation⟩,
   some ⟨(max health.1 0).toNat, (max health.2 1).toNat, 1⟩,
   some ⟨0, 0, 0, 5, 8, false⟩, some ⟨10, 5, 2, 1, 0⟩, none⟩

/-- Successive ids drawn from one EntityManager by iterating generate_id. -/
def genIds : EntityManager → ℕ → List ℕ
  | _, 0 => []
  | m, n + 1 => (m.generateId).1 :: genIds (m.generateId).2 n

/-- Scenario entity for the movement claims: a player-shaped entity at the
origin with speed 5 replaced by 8 so that speed = max_speed = 8. -/
def mvEntity : Entity :=
  ⟨1, .player, "Walker", some ⟨0, 0, 0, 0⟩, none, some ⟨0, 0, 0, 8, 8, false⟩, none, none⟩

/-- Scenario intent for the movement claims: target (0, 0, -1), modifier 1,
client facing 1 radian, not a stop. -/
def mvIntent : MovementIntent := ⟨1, 0, 0, -1, 1, false, 1⟩

/-- Result of processing mvIntent on mvEntity: velocity (0, 0, -8), moving
flag set, yaw overwritten to atan2 0 1 = 0. -/
def mvApplied : Entity :=
  ⟨1, .player, "Walker", some ⟨0, 0, 0, 0⟩, none, some ⟨0, 0, -8, 8, 8, true⟩, none, none⟩

/-- Scenario world for the attack-cooldown claim: on the freshly created
world, spawn the attacker at (15, 0, 15) and the target at (15, 0, 13.5) in
zone 1, so they stand 1.5 apart, within the player attack range of 2. -/
def c3World : WorldState :=
  match WorldState.new.spawnPlayerEntity "Attacker" "1" (15, 0, 15) 0 (100, 100) with
  | .ok (_, w1) =>
    match w1.spawnPlayerEntity "Target" "1" (15, 0, 13.5) 0 (100, 100) with
    | .ok (_, w2) => w2
    | .error _ => w1
  | .error _ => WorldState.new

/-- Scenario world for the health-invariant claim: one player spawned with
requested health (50, 100). -/
def c6World : WorldState :=
  match WorldState.new.spawnPlayerEntity "Hero" "1" (0, 0, 0) 0 (50, 100) with
  | .ok (_, w) => w
  | .error _ => WorldState.new

/-- Scenario world refuting the spawn part of the health invariant: the
requested health pair (100, 50) has current above maximum and
spawn_player_entity stores it without reconciling the two. -/
def c6BadWorld : WorldState :=
  match WorldState.new.spawnPlayerEntity "Over" "1" (0, 0, 0) 0 (100, 50) with
  | .ok (_, w) => w
  | .error _ => WorldState.new

/-- Scenario world for the zone-transition claim: one player spawned in
zone 1 at x = 96, past the portal threshold x > 95. -/
def c7World : WorldState :=
  match WorldState.new.spawnPlayerEntity "Hero" "1" (96, 0, 0) 0 (100, 100) with
  | .ok (_, w) => w
  | .error _ => WorldState.new

/-- Scenario world for the id-uniqueness claim: one player spawned into
zone 2, whose freshly created manager starts counting at 1 again. -/
def c8World : WorldState :=
  match WorldState.new.spawnPlayerEntity "Dup" "2" (0, 0, 0) 0 (100, 100) with
  | .ok (_, w) => w
  | .error _ => WorldState.new

/-! ## Theorems -/

theorem updateAi_health (mgr : List (ℕ × Entity)) (e : Entity) (a : Ai) (dt : ℝ) :
    (updateAi mgr e a dt).health = e.health := by
  unfold updateAi
  rcases a with ⟨state, ar, lr, hp, lc⟩
  cases state <;> dsimp only <;>
    first
      | rfl
      | ((repeat' split) <;> rfl)

theorem updateAi_position (mgr : List (ℕ × Entity)) (e : Entity) (a : Ai) (dt : ℝ) :
    (updateAi mgr e a dt).position = e.position := by
  unfold updateAi
  rcases a with ⟨state, ar, lr, hp, lc⟩
  cases state <;> dsimp only <;>
    first
      | rfl
      | ((repeat' split) <;> rfl)

/-- Claim C9 (amended): when current < maximum, update sets current to
min(maximum, current + floor(rate * dt)): the regen amount is truncated to
a whole number of hit points by the `as u32` cast before it is added. -/
theorem c9_amended (mgr : List (ℕ × Entity)) (e : Entity) (h : Health) (dt : ℝ)
    (he : e.health = some h) (hcur : h.current < h.maximum) :
    (updateEntity mgr e dt).health =
      some ⟨min (h.current + ⌊h.regenerationRate * dt⌋₊) h.maximum, h.maximum,
            h.regenerationRate⟩ := by
  unfold updateEntity
  rw [he]
  dsimp only
  rw [if_pos hcur]
  repeat' split
  all_goals simp [updateAi_health]

/-- Counterexample to C9 as stated: current 5, maximum 100, rate 1,
dt = 1/20; the code leaves current at 5 while the spec formula evaluates
to 5.05. -/
theorem c9_counterexample :
    ((updateEntity [] ⟨1, .player, "E", none, some ⟨5, 100, 1⟩, none, none, none⟩
        (1 / 20)).health.map Health.current) = some 5 ∧
    specRegenFormula 5 100 1 (1 / 20) = 101 / 20 ∧ (5 : ℝ) ≠ 101 / 20 := by
  have h0 : (⌊(1 : ℝ) * (1 / 20)⌋₊ : ℕ) = 0 := Nat.floor_eq_zero.mpr (by norm_num)
  have h1 : (⌊(1 : ℝ) / 20⌋₊ : ℕ) = 0 := Nat.floor_eq_zero.mpr (by norm_num)
  refine ⟨?_, by unfold specRegenFormula; norm_num, by norm_num⟩
  unfold updateEntity
  norm_num [h0, h1]

/-- Witness for C9 (amended) at current 5, maximum 100, rate 1, dt 1/20. -/
theorem c9_witness :
    (updateEntity [] ⟨1, .player, "E", none, some ⟨5, 100, 1⟩, none, none, none⟩
        (1 / 20)).health =
      some ⟨min (5 + ⌊(1 : ℝ) * (1 / 20)⌋₊) 100, 100, 1⟩ :=
  c9_amended [] _ ⟨5, 100, 1⟩ (1 / 20) rfl (by norm_num)

/-- Claim C4 (amended): for a moving entity without an AI component, update
moves the position by exactly velocity * dt, then multiplies each velocity
component by the damping factor 0.9, and zeroes the velocity and clears the
moving flag when every damped component is below 0.01 in absolute value. -/
theorem c4_amended (mgr : List (ℕ × Entity)) (e : Entity) (p : Position) (m : Movement)
    (dt : ℝ) (hp : e.position = some p) (hm : e.movement = some m)
    (hmov : m.isMoving = true) (hai : e.ai = none) :
    (updateEntity mgr e dt).position =
      some ⟨p.x + m.velocityX * dt, p.y + m.velocityY * dt, p.z + m.velocityZ * dt,
            p.rotation⟩ ∧
    ((|m.velocityX * 0.9| < 0.01 ∧ |m.velocityY * 0.9| < 0.01 ∧ |m.velocityZ * 0.9| < 0.01) →
      (updateEntity mgr e dt).movement =
        some { m with velocityX := 0, velocityY := 0, velocityZ := 0, isMoving := false }) ∧
    (¬ (|m.velocityX * 0.9| < 0.01 ∧ |m.velocityY * 0.9| < 0.01 ∧ |m.velocityZ * 0.9| < 0.01) →
      (updateEntity mgr e dt).movement =
        some { m with
          velocityX := m.velocityX * 0.9
          velocityY := m.velocityY * 0.9
          velocityZ := m.velocityZ * 0.9 }) := by
  rcases e with ⟨id, ty, nm, pos, hl, mv, cb, ai⟩
  cases hp
  cases hm
  cases hai
  unfold updateEntity
  by_cases hC : |m.velocityX * 0.9| < 0.01 ∧ |m.velocityY * 0.9| < 0.01 ∧
      |m.velocityZ * 0.9| < 0.01
  · rcases hl with _ | hh
    · dsimp only
      rw [if_pos hmov, if_pos hC]
      exact ⟨rfl, fun _ => rfl, fun hn => absurd hC hn⟩
    · by_cases hR : hh.current < hh.maximum
      · dsimp only
        rw [if_pos hR]
        dsimp only
        rw [if_pos hmov, if_pos hC]
        exact ⟨rfl, fun _ => rfl, fun hn => absurd hC hn⟩
      · dsimp only
        rw [if_neg hR]
        dsimp only
        rw [if_pos hmov, if_pos hC]
        exact ⟨rfl, fun _ => rfl, fun hn => absurd hC hn⟩
  · rcases hl with _ | hh
    · dsimp only
      rw [if_pos hmov, if_neg hC]
      exact ⟨rfl, fun hc => absurd hc hC, fun _ => rfl⟩
    · by_cases hR : hh.current < hh.maximum
      · dsimp only
        rw [if_pos hR]
        dsimp only
        rw [if_pos hmov, if_neg hC]
        exact ⟨rfl, fun hc => absurd hc hC, fun _ => rfl⟩
      · dsimp only
        rw [if_neg hR]
        dsimp only
        rw [if_pos hmov, if_neg hC]
        exact ⟨rfl, fun hc => absurd hc hC, fun _ => rfl⟩

/-- Counterexample to C4 as stated: velocity (1, 0, 0) becomes (0.9, 0, 0)
after one update, so the velocity is not left unchanged. -/
theorem c4_counterexample :
    ((updateEntity [] ⟨1, .player, "E", some ⟨0, 0, 0, 0⟩, none,
        some ⟨1, 0, 0, 5, 8, true⟩, none, none⟩ (1 / 20)).movement.map
      Movement.velocityX) = some (9 / 10) ∧
    ((updateEntity [] ⟨1, .player, "E", some ⟨0, 0, 0, 0⟩, none,
        some ⟨1, 0, 0, 5, 8, true⟩, none, none⟩ (1 / 20)).position.map
      Position.x) = some (1 / 20) ∧
    ((9 : ℝ) / 10 ≠ 1) := by
  have hC : ¬ (|(1 : ℝ) * 0.9| < 0.01 ∧ |(0 : ℝ) * 0.9| < 0.01 ∧ |(0 : ℝ) * 0.9| < 0.01) := by
    rw [abs_of_nonneg (by norm_num)]
    norm_num
  refine ⟨?_, ?_, by norm_num⟩ <;>
  · unfold updateEntity
    dsimp only
    rw [if_pos rfl, if_neg hC]
    norm_num

/-- Witness for C4 (amended) at velocity (1, 0, 0) and dt = 1/20. -/
theorem c4_witness :
    (updateEntity [] ⟨1, .player, "E", some ⟨0, 0, 0, 0⟩, none,
        some ⟨1, 0, 0, 5, 8, true⟩, none, none⟩ (1 / 20)).position =
      some ⟨0 + 1 * (1 / 20), 0 + 0 * (1 / 20), 0 + 0 * (1 / 20), 0⟩ :=
  (c4_amended [] _ ⟨0, 0, 0, 0⟩ ⟨1, 0, 0, 5, 8, true⟩ (1 / 20) rfl rfl rfl rfl).1

/-- Counterexample to C2 as stated: with attack_power 10 and defense 1 the
code deals 9 while the spec formula evaluates to 9.5. -/
theorem c2_counterexample :
    calculateDamage
        ⟨1, .player, "A", none, none, none, some ⟨10, 5, 2, 1, 0⟩, none⟩
        ⟨2, .player, "B", none, none, none, some ⟨10, 1, 2, 1, 0⟩, none⟩
        (.autoAttack 2) = 9 ∧
    specDamageFormula 10 1 = 19 / 2 ∧ ((9 : ℝ) ≠ 19 / 2) := by
  refine ⟨?_, by unfold specDamageFormula; norm_num, by norm_num⟩
  unfold calculateDamage
  dsimp only
  norm_num [Nat.floor_eq_iff]

/-- Claim C2 (amended): the damage dealt equals the floor (the `as u32`
truncation) of max(1, base - min(defense * 0.5, base * 0.75)), with base =
attack_power for an auto attack and attack_power * 2 for an ability and
defense 0 when the target has no combat component; in particular damage is
always at least 1. -/
theorem c2_amended (attacker target : Entity) (c : Combat) (action : CombatAction)
    (hc : attacker.combat = some c) :
    calculateDamage attacker target action =
      ⌊specDamageFormula
        (match action with | .autoAttack _ => c.attackPower | .ability _ _ => c.attackPower * 2)
        (match target.combat with | none => 0 | some tc => tc.defense)⌋₊ ∧
    1 ≤ calculateDamage attacker target action := by
  unfold calculateDamage specDamageFormula
  rw [hc]
  dsimp only
  constructor
  · cases action <;> rfl
  · cases action <;> dsimp only <;>
    exact Nat.le_floor (by push_cast; exact le_max_right _ 1)

/-- Witness for C2 (amended) at attack_power 10 against a target without a
combat component. -/
theorem c2_witness :
    calculateDamage ⟨1, .player, "A", none, none, none, some ⟨10, 5, 2, 1, 0⟩, none⟩
        ⟨2, .mob, "B", none, none, none, none, none⟩ (.autoAttack 2) =
      ⌊specDamageFormula 10 0⌋₊ ∧
    1 ≤ calculateDamage ⟨1, .player, "A", none, none, none, some ⟨10, 5, 2, 1, 0⟩, none⟩
        ⟨2, .mob, "B", none, none, none, none, none⟩ (.autoAttack 2) :=
  c2_amended _ _ ⟨10, 5, 2, 1, 0⟩ (.autoAttack 2) rfl

/-- Concrete scenario world for the attack-cooldown claim: on the freshly
created world, spawn the attacker at (15, 0, 15) and the target at
(15, 0, 13.5) in zone 1, so they stand 1.5 apart, within the player attack
range of 2. -/

theorem c3_world_eval :
    c3World =
      ⟨[(2, ⟨2, "Second Zone", ⟨-150, 100, -10, 50, -100, 100⟩, ⟨[], 1⟩, []⟩),
        (1, ⟨1, "Starter Zone", ⟨-100, 100, -10, 50, -100, 100⟩,
          ⟨[(1, ⟨1, .mob, "Goblin", some ⟨15, 0, 15, 0⟩, some ⟨70, 70, 0.5⟩,
              some ⟨0, 0, 0, 3, 6, false⟩, some ⟨7, 3, 1.5, 0.8, 0⟩,
              some ⟨.idle, 8, 25, (15, 0, 15), 0⟩⟩),
            (2, ⟨2, .mob, "Orc", some ⟨-15, 0, 15, 0⟩, some ⟨70, 70, 0.5⟩,
              some ⟨0, 0, 0, 3, 6, false⟩, some ⟨7, 3, 1.5, 0.8, 0⟩,
              some ⟨.idle, 8, 25, (-15, 0, 15), 0⟩⟩),
            (3, ⟨3, .mob, "Wolf", some ⟨0, 0, 25, 0⟩, some ⟨70, 70, 0.5⟩,
              some ⟨0, 0, 0, 3, 6, false⟩, some ⟨7, 3, 1.5, 0.8, 0⟩,
              some ⟨.idle, 8, 25, (0, 0, 25), 0⟩⟩),
            (4, ⟨4, .player, "Attacker", some ⟨15, 0, 15, 0⟩, some ⟨100, 100, 1⟩,
              some ⟨0, 0, 0, 5, 8, false⟩, some ⟨10, 5, 2, 1, 0⟩, none⟩),
            (5, ⟨5, .player, "Target", some ⟨15, 0, 13.5, 0⟩, some ⟨100, 100, 1⟩,
              some ⟨0, 0, 0, 5, 8, false⟩, some ⟨10, 5, 2, 1, 0⟩, none⟩)], 6⟩,
          [5, 4]⟩)],
       [(4, 1), (5, 1)], [], []⟩ := rfl

theorem c3_validate_eval :
    validateAttack
      ⟨4, .player, "Attacker", some ⟨15, 0, 15, 0⟩, some ⟨100, 100, 1⟩,
        some ⟨0, 0, 0, 5, 8, false⟩, some ⟨10, 5, 2, 1, 0⟩, none⟩
      ⟨5, .player, "Target", some ⟨15, 0, 13.5, 0⟩, some ⟨100, 100, 1⟩,
        some ⟨0, 0, 0, 5, 8, false⟩, some ⟨10, 5, 2, 1, 0⟩, none⟩
      (.autoAttack 5) = .error "Attack is on cooldown" := by
  have h1 : ((15 : ℝ) - 15) * (15 - 15) + ((0 : ℝ) - 0) * (0 - 0) +
      ((15 : ℝ) - 13.5) * (15 - 13.5) = 2.25 := by norm_num
  have hs : Real.sqrt 2.25 = 1.5 := by
    rw [show (2.25 : ℝ) = 1.5 ^ 2 by norm_num]
    exact Real.sqrt_sq (by norm_num)
  unfold validateAttack Entity.distanceTo Entity.isAlive
  dsimp only
  rw [h1, hs]
  norm_num

/-- Claim C3: the code rejects the FIRST auto attack of a fresh attacker
with \"Attack is on cooldown\" because current_time is hard-coded to 0.0 and
equals the initial last_attack_time, and the target health is untouched;
the claim expects the first attack to succeed. -/
theorem c3_code_bug :
    (processCombatAction c3World 4 (.autoAttack 5)).2 = failResult "Attack is on cooldown" ∧
    ((alookup 1 (processCombatAction c3World 4 (.autoAttack 5)).1.zones).bind fun z =>
      (alookup 5 z.entities.entities).bind fun e => e.health.map Health.current) =
      some 100 := by
  have hw : processCombatAction c3World 4 (.autoAttack 5) =
      (c3World, failResult "Attack is on cooldown") := by
    rw [c3_world_eval]
    unfold processCombatAction WorldState.getPlayerZoneId
    simp [alookup, CombatAction.targetId, Entity.canAttack, Entity.isAlive, c3_validate_eval]
  rw [hw, c3_world_eval]
  norm_num [alookup]

theorem clampIntent_stop (e : Entity) (i : MovementIntent) :
    (clampIntent e i).stopMovement = i.stopMovement := by
  unfold clampIntent
  (repeat' split) <;> first | rfl | (dsimp only; split <;> rfl)

theorem clampIntent_speedModifier (e : Entity) (i : MovementIntent) :
    (clampIntent e i).speedModifier = i.speedModifier := by
  unfold clampIntent
  (repeat' split) <;> first | rfl | (dsimp only; split <;> rfl)

theorem clampIntent_sq_pos (e : Entity) (i : MovementIntent) (p : Position) (m : Movement)
    (hp : e.position = some p) (hm : e.movement = some m)
    (hq : 0 < (i.targetX - p.x) * (i.targetX - p.x) +
      (i.targetY - p.y) * (i.targetY - p.y) + (i.targetZ - p.z) * (i.targetZ - p.z))
    (hms : 0 < m.maxSpeed * i.speedModifier) :
    0 < ((clampIntent e i).targetX - p.x) * ((clampIntent e i).targetX - p.x) +
      ((clampIntent e i).targetY - p.y) * ((clampIntent e i).targetY - p.y) +
      ((clampIntent e i).targetZ - p.z) * ((clampIntent e i).targetZ - p.z) := by
  unfold clampIntent
  rw [hm, hp]
  dsimp only
  split
  · rename_i hcond
    dsimp only
    have hmax : 0 < m.maxSpeed * i.speedModifier * maxDistanceFactor / 20 := by
      unfold maxDistanceFactor
      positivity
    have hDpos : (0 : ℝ) < Real.sqrt ((i.targetX - p.x) * (i.targetX - p.x) +
        (i.targetY - p.y) * (i.targetY - p.y) + (i.targetZ - p.z) * (i.targetZ - p.z)) :=
      Real.sqrt_pos.mpr hq
    set scale := m.maxSpeed * i.speedModifier * maxDistanceFactor / 20 /
      Real.sqrt ((i.targetX - p.x) * (i.targetX - p.x) +
        (i.targetY - p.y) * (i.targetY - p.y) + (i.targetZ - p.z) * (i.targetZ - p.z)) with hscale
    have hscalepos : 0 < scale := div_pos hmax hDpos
    have hrw : (p.x + (i.targetX - p.x) * scale - p.x) * (p.x + (i.targetX - p.x) * scale - p.x) +
        (p.y + (i.targetY - p.y) * scale - p.y) * (p.y + (i.targetY - p.y) * scale - p.y) +
        (p.z + (i.targetZ - p.z) * scale - p.z) * (p.z + (i.targetZ - p.z) * scale - p.z) =
        ((i.targetX - p.x) * (i.targetX - p.x) + (i.targetY - p.y) * (i.targetY - p.y) +
         (i.targetZ - p.z) * (i.targetZ - p.z)) * (scale * scale) := by ring
    rw [hrw]
    exact mul_pos hq (mul_pos hscalepos hscalepos)
  · exact hq

theorem applyMovement_spec (e : Entity) (i : MovementIntent) (p : Position) (m : Movement)
    (hp : e.position = some p) (hm : e.movement = some m)
    (hq : 0 < (i.targetX - p.x) * (i.targetX - p.x) +
      (i.targetY - p.y) * (i.targetY - p.y) + (i.targetZ - p.z) * (i.targetZ - p.z)) :
    (applyMovement e i).position =
      some ⟨p.x, p.y, p.z, atan2 (-(i.targetX - p.x)) (-(i.targetZ - p.z))⟩ ∧
    ∃ m', (applyMovement e i).movement = some m' ∧
      m'.isMoving = true ∧ m'.speed = m.speed ∧ m'.maxSpeed = m.maxSpeed ∧
      m'.velocityX * m'.velocityX + m'.velocityY * m'.velocityY +
        m'.velocityZ * m'.velocityZ =
        (m.speed * i.speedModifier) * (m.speed * i.speedModifier) := by
  rcases e with ⟨id, ty, nm, pos, hl, mv, cb, ai⟩
  cases hp
  cases hm
  unfold applyMovement
  dsimp only
  have hD : (0 : ℝ) < Real.sqrt ((i.targetX - p.x) * (i.targetX - p.x) +
      (i.targetY - p.y) * (i.targetY - p.y) + (i.targetZ - p.z) * (i.targetZ - p.z)) :=
    Real.sqrt_pos.mpr hq
  rw [if_pos hD]
  refine ⟨rfl, _, rfl, rfl, rfl, rfl, ?_⟩
  set q := (i.targetX - p.x) * (i.targetX - p.x) + (i.targetY - p.y) * (i.targetY - p.y) +
    (i.targetZ - p.z) * (i.targetZ - p.z) with hqdef
  set D := Real.sqrt q with hDdef
  have hD2 : D * D = q := Real.mul_self_sqrt (le_of_lt hq)
  have hqne : q ≠ 0 := ne_of_gt hq
  calc (i.targetX - p.x) / D * (m.speed * i.speedModifier) *
        ((i.targetX - p.x) / D * (m.speed * i.speedModifier)) +
      (i.targetY - p.y) / D * (m.speed * i.speedModifier) *
        ((i.targetY - p.y) / D * (m.speed * i.speedModifier)) +
      (i.targetZ - p.z) / D * (m.speed * i.speedModifier) *
        ((i.targetZ - p.z) / D * (m.speed * i.speedModifier)) =
      (m.speed * i.speedModifier) * (m.speed * i.speedModifier) * (q / (D * D)) := by
        rw [hqdef]; ring
    _ = (m.speed * i.speedModifier) * (m.speed * i.speedModifier) := by
        rw [hD2, div_self hqne, mul_one]

theorem processEntityMovement_ok (e e' : Entity) (i : MovementIntent)
    (hstop : i.stopMovement = false)
    (hok : processEntityMovement e i = .ok e') :
    e' = applyMovement e (clampIntent e i) := by
  unfold processEntityMovement at hok
  rw [hstop] at hok
  dsimp only at hok
  rcases hv : validateMovement e (clampIntent e i) with msg | u
  · rw [hv] at hok
    exact absurd hok (by simp)
  · rw [hv] at hok
    exact (Except.ok.injEq _ _).mp hok.symm

theorem updateEntity_position_moving (mgr : List (ℕ × Entity)) (e : Entity) (p : Position)
    (m : Movement) (dt : ℝ) (hp : e.position = some p) (hm : e.movement = some m)
    (hmov : m.isMoving = true) :
    (updateEntity mgr e dt).position =
      some ⟨p.x + m.velocityX * dt, p.y + m.velocityY * dt, p.z + m.velocityZ * dt,
            p.rotation⟩ := by
  rcases e with ⟨id, ty, nm, pos, hl, mv, cb, ai⟩
  cases hp
  cases hm
  unfold updateEntity
  by_cases hC : |m.velocityX * 0.9| < 0.01 ∧ |m.velocityY * 0.9| < 0.01 ∧
      |m.velocityZ * 0.9| < 0.01
  · rcases hl with _ | hh
    · dsimp only
      rw [if_pos hmov, if_pos hC]
      cases ai with
      | none => rfl
      | some a => rw [updateAi_position]
    · by_cases hR : hh.current < hh.maximum
      · dsimp only
        rw [if_pos hR]
        dsimp only
        rw [if_pos hmov, if_pos hC]
        cases ai with
        | none => rfl
        | some a => rw [updateAi_position]
      · dsimp only
        rw [if_neg hR]
        dsimp only
        rw [if_pos hmov, if_pos hC]
        cases ai with
        | none => rfl
        | some a => rw [updateAi_position]
  · rcases hl with _ | hh
    · dsimp only
      rw [if_pos hmov, if_neg hC]
      cases ai with
      | none => rfl
      | some a => rw [updateAi_position]
    · by_cases hR : hh.current < hh.maximum
      · dsimp only
        rw [if_pos hR]
        dsimp only
        rw [if_pos hmov, if_neg hC]
        cases ai with
        | none => rfl
        | some a => rw [updateAi_position]
      · dsimp only
        rw [if_neg hR]
        dsimp only
        rw [if_pos hmov, if_neg hC]
        cases ai with
        | none => rfl
        | some a => rw [updateAi_position]

theorem atan2_zero_one : atan2 0 1 = 0 := by
  unfold atan2
  rw [if_pos one_pos]
  norm_num [Real.arctan_zero]

theorem mv_clamp_eval : clampIntent mvEntity mvIntent = mvIntent := by
  unfold clampIntent mvEntity mvIntent
  dsimp only
  have harg : ((0 : ℝ) - 0) * ((0 : ℝ) - 0) + ((0 : ℝ) - 0) * ((0 : ℝ) - 0) +
      ((-1 : ℝ) - 0) * ((-1 : ℝ) - 0) = 1 := by norm_num
  rw [harg, Real.sqrt_one]
  rw [if_neg (by norm_num [maxDistanceFactor])]

theorem mv_validate_eval : validateMovement mvEntity mvIntent = .ok () := by
  unfold validateMovement Entity.canMove Entity.isAlive mvEntity mvIntent
  dsimp only
  have harg : ((0 : ℝ) - 0) * ((0 : ℝ) - 0) + ((0 : ℝ) - 0) * ((0 : ℝ) - 0) +
      ((-1 : ℝ) - 0) * ((-1 : ℝ) - 0) = 1 := by norm_num
  rw [harg, Real.sqrt_one]
  norm_num [maxDistanceFactor, f32Epsilon]

theorem mv_apply_eval : applyMovement mvEntity mvIntent = mvApplied := by
  unfold applyMovement mvEntity mvIntent mvApplied
  dsimp only
  have harg : ((0 : ℝ) - 0) * ((0 : ℝ) - 0) + ((0 : ℝ) - 0) * ((0 : ℝ) - 0) +
      ((-1 : ℝ) - 0) * ((-1 : ℝ) - 0) = 1 := by norm_num
  rw [harg, Real.sqrt_one]
  rw [if_pos one_pos]
  simp only [Entity.mk.injEq, Position.mk.injEq, Movement.mk.injEq, Option.some.injEq]
  norm_num
  exact atan2_zero_one

theorem mv_process_eval : processEntityMovement mvEntity mvIntent = .ok mvApplied := by
  unfold processEntityMovement
  rw [if_neg (by decide : ¬ (mvIntent.stopMovement = true))]
  rw [mv_clamp_eval]
  dsimp only
  rw [mv_validate_eval]
  dsimp only
  rw [mv_apply_eval]

/-- Counterexample to C5 as stated: an intent with rotation_y = 1 moving
toward (0, 0, -1) leaves the entity with yaw 0, not 1. -/
theorem c5_counterexample :
    ((processEntityMovement mvEntity mvIntent).toOption.bind
      (fun e => e.position.map Position.rotation)) = some 0 ∧
    mvIntent.rotationY = 1 ∧ ((0 : ℝ) ≠ 1) := by
  rw [mv_process_eval]
  refine ⟨rfl, rfl, by norm_num⟩

/-- Claim C5 (amended): after an accepted non-stop intent with a nonzero
clamped direction, the yaw equals atan2(-dx, -dz) of the clamped direction
(the movement direction under the Godot convention), not the
client-supplied rotation_y, and the moving flag is set. -/
theorem c5_amended (e e' : Entity) (i : MovementIntent) (p : Position) (m : Movement)
    (hp : e.position = some p) (hm : e.movement = some m)
    (hstop : i.stopMovement = false)
    (hq : 0 < (i.targetX - p.x) * (i.targetX - p.x) +
      (i.targetY - p.y) * (i.targetY - p.y) + (i.targetZ - p.z) * (i.targetZ - p.z))
    (hms : 0 < m.maxSpeed * i.speedModifier)
    (hok : processEntityMovement e i = .ok e') :
    (e'.position.map Position.rotation) =
      some (atan2 (-((clampIntent e i).targetX - p.x)) (-((clampIntent e i).targetZ - p.z))) ∧
    (e'.movement.map Movement.isMoving) = some true := by
  obtain rfl : e' = applyMovement e (clampIntent e i) := processEntityMovement_ok e e' i hstop hok
  have hq' := clampIntent_sq_pos e i p m hp hm hq hms
  obtain ⟨hpos, m', hm', hmv, -, -, -⟩ := applyMovement_spec e (clampIntent e i) p m hp hm hq'
  rw [hpos, hm']
  simp [hmv]

/-- Witness for C5 (amended) at the concrete movement scenario. -/
theorem c5_witness :
    ((mvApplied : Entity).position.map Position.rotation) =
      some (atan2 (-((clampIntent mvEntity mvIntent).targetX - 0))
        (-((clampIntent mvEntity mvIntent).targetZ - 0))) ∧
    ((mvApplied : Entity).movement.map Movement.isMoving) = some true :=
  c5_amended mvEntity mvApplied mvIntent ⟨0, 0, 0, 0⟩ ⟨0, 0, 0, 8, 8, false⟩ rfl rfl rfl
    (by norm_num [mvIntent]) (by norm_num [mvIntent]) mv_process_eval

/-- Claim C1 (amended): for every accepted non-stop movement intent with a
positive speed modifier and a requested target distinct from the current
position (so the clamped direction is nonzero and the velocity is actually
set), on an entity whose movement speed is between 0 and its positive
max_speed, the magnitude of the position change in the following tick
(dt = 1/20) is at most max_speed * speed_modifier * 5 / 20 regardless of
the requested target distance.  The original unconditional claim is false:
see the counterexample, where an accepted degenerate intent leaves a
gliding entity moving beyond the claimed bound. -/
theorem c1_movement_clamp (mgr : List (ℕ × Entity)) (e e' : Entity) (i : MovementIntent)
    (p : Position) (m : Movement)
    (hp : e.position = some p) (hm : e.movement = some m)
    (hs0 : 0 ≤ m.speed) (hsmax : m.speed ≤ m.maxSpeed)
    (hmod : 0 < i.speedModifier) (hmax : 0 < m.maxSpeed)
    (hstop : i.stopMovement = false)
    (hq : 0 < (i.targetX - p.x) * (i.targetX - p.x) +
      (i.targetY - p.y) * (i.targetY - p.y) + (i.targetZ - p.z) * (i.targetZ - p.z))
    (hok : processEntityMovement e i = .ok e')
    (p'' : Position)
    (hupd : (updateEntity mgr e' (1 / 20)).position = some p'') :
    Real.sqrt ((p''.x - p.x) ^ 2 + (p''.y - p.y) ^ 2 + (p''.z - p.z) ^ 2) ≤
      m.maxSpeed * i.speedModifier * 5 / 20 := by
  have hms : 0 < m.maxSpeed * i.speedModifier := mul_pos hmax hmod
  obtain rfl : e' = applyMovement e (clampIntent e i) := processEntityMovement_ok e e' i hstop hok
  have hq' := clampIntent_sq_pos e i p m hp hm hq hms
  obtain ⟨hpos, m', hm', hmv, hsp, hmx, hnorm⟩ :=
    applyMovement_spec e (clampIntent e i) p m hp hm hq'
  have hmod' : (clampIntent e i).speedModifier = i.speedModifier :=
    clampIntent_speedModifier e i
  rw [hmod'] at hnorm
  have hupd' := updateEntity_position_moving mgr _ _ m' (1 / 20) hpos hm' hmv
  rw [hupd] at hupd'
  obtain rfl : p'' = ⟨p.x + m'.velocityX * (1 / 20), p.y + m'.velocityY * (1 / 20),
      p.z + m'.velocityZ * (1 / 20), atan2 (-((clampIntent e i).targetX - p.x))
        (-((clampIntent e i).targetZ - p.z))⟩ := Option.some.inj hupd'
  have hsum : ((⟨p.x + m'.velocityX * (1 / 20), p.y + m'.velocityY * (1 / 20),
      p.z + m'.velocityZ * (1 / 20), atan2 (-((clampIntent e i).targetX - p.x))
        (-((clampIntent e i).targetZ - p.z))⟩ : Position).x - p.x) ^ 2 +
      ((⟨p.x + m'.velocityX * (1 / 20), p.y + m'.velocityY * (1 / 20),
      p.z + m'.velocityZ * (1 / 20), atan2 (-((clampIntent e i).targetX - p.x))
        (-((clampIntent e i).targetZ - p.z))⟩ : Position).y - p.y) ^ 2 +
      ((⟨p.x + m'.velocityX * (1 / 20), p.y + m'.velocityY * (1 / 20),
      p.z + m'.velocityZ * (1 / 20), atan2 (-((clampIntent e i).targetX - p.x))
        (-((clampIntent e i).targetZ - p.z))⟩ : Position).z - p.z) ^ 2 =
      (m.speed * i.speedModifier / 20) ^ 2 := by
    dsimp only
    calc (p.x + m'.velocityX * (1 / 20) - p.x) ^ 2 +
        (p.y + m'.velocityY * (1 / 20) - p.y) ^ 2 +
        (p.z + m'.velocityZ * (1 / 20) - p.z) ^ 2 =
        (m'.velocityX * m'.velocityX + m'.velocityY * m'.velocityY +
          m'.velocityZ * m'.velocityZ) * (1 / 20) ^ 2 := by ring
      _ = (m.speed * i.speedModifier) * (m.speed * i.speedModifier) * (1 / 20) ^ 2 := by
          rw [hnorm]
      _ = (m.speed * i.speedModifier / 20) ^ 2 := by ring
  rw [hsum, Real.sqrt_sq (div_nonneg (mul_nonneg hs0 (le_of_lt hmod)) (by norm_num))]
  have hle : m.speed * i.speedModifier ≤ m.maxSpeed * i.speedModifier :=
    mul_le_mul_of_nonneg_right hsmax (le_of_lt hmod)
  linarith [le_of_lt hms]

set_option maxHeartbeats 1000000 in

/-- Witness for C1 (amended) at the concrete scenario: max_speed 8,
modifier 1, target (0, 0, -1); the tick moves 0.4, below the bound 2. -/
theorem c1_witness :
    Real.sqrt ((((0 : ℝ) + 0 * (1 / 20)) - 0) ^ 2 + (((0 : ℝ) + 0 * (1 / 20)) - 0) ^ 2 +
      (((0 : ℝ) + (-8) * (1 / 20)) - 0) ^ 2) ≤ 8 * 1 * 5 / 20 := by
  have hupd := updateEntity_position_moving [] mvApplied ⟨0, 0, 0, 0⟩ ⟨0, 0, -8, 8, 8, true⟩
    (1 / 20) rfl rfl rfl
  exact c1_movement_clamp [] mvEntity mvApplied mvIntent ⟨0, 0, 0, 0⟩ ⟨0, 0, 0, 8, 8, false⟩
    rfl rfl (by norm_num) (by norm_num) (by norm_num [mvIntent]) (by norm_num) rfl
    (by norm_num [mvIntent]) mv_process_eval
    ⟨0 + 0 * (1 / 20), 0 + 0 * (1 / 20), 0 + (-8) * (1 / 20), 0⟩ hupd

/-- Counterexample to C1 as stated: mvApplied is the gliding entity that an
earlier accepted intent left with velocity (0, 0, -8) and the moving flag
set; the degenerate intent with speed_modifier = 0 and the target at the
current position is then also accepted (clamped distance 0 passes
validation) and leaves the velocity untouched, so the next tick still moves
the entity 0.4 units while the claimed bound
max_speed * speed_modifier * 5 / 20 for this accepted intent is 0. -/
theorem c1_counterexample :
    processEntityMovement mvEntity mvIntent = .ok mvApplied ∧
    processEntityMovement mvApplied ⟨1, 0, 0, 0, 0, false, 0⟩ = .ok mvApplied ∧
    (updateEntity [] mvApplied (1 / 20)).position =
      some ⟨0 + 0 * (1 / 20), 0 + 0 * (1 / 20), 0 + (-8) * (1 / 20), 0⟩ ∧
    Real.sqrt ((((0 : ℝ) + 0 * (1 / 20)) - 0) ^ 2 + (((0 : ℝ) + 0 * (1 / 20)) - 0) ^ 2 +
      (((0 : ℝ) + (-8) * (1 / 20)) - 0) ^ 2) = 2 / 5 ∧
    ¬ ((2 / 5 : ℝ) ≤ 8 * 0 * 5 / 20) := by
  refine ⟨mv_process_eval, ?_, updateEntity_position_moving [] mvApplied ⟨0, 0, 0, 0⟩
    ⟨0, 0, -8, 8, 8, true⟩ (1 / 20) rfl rfl rfl, ?_, by norm_num⟩
  · have harg : ((0 : ℝ) - 0) * ((0 : ℝ) - 0) + ((0 : ℝ) - 0) * ((0 : ℝ) - 0) +
        ((0 : ℝ) - 0) * ((0 : ℝ) - 0) = 0 := by norm_num
    have hclamp : clampIntent mvApplied ⟨1, 0, 0, 0, 0, false, 0⟩ =
        ⟨1, 0, 0, 0, 0, false, 0⟩ := by
      unfold clampIntent mvApplied
      dsimp only
      rw [harg, Real.sqrt_zero]
      rw [if_neg (by norm_num)]
    have hval : validateMovement mvApplied ⟨1, 0, 0, 0, 0, false, 0⟩ = .ok () := by
      unfold validateMovement Entity.canMove Entity.isAlive mvApplied
      dsimp only
      rw [harg, Real.sqrt_zero]
      norm_num [maxDistanceFactor, f32Epsilon]
    have happly : applyMovement mvApplied ⟨1, 0, 0, 0, 0, false, 0⟩ = mvApplied := by
      unfold applyMovement mvApplied
      dsimp only
      rw [harg, Real.sqrt_zero]
      rw [if_neg (by norm_num)]
    unfold processEntityMovement
    rw [if_neg (by decide :
      ¬ ((⟨1, 0, 0, 0, 0, false, 0⟩ : MovementIntent).stopMovement = true))]
    rw [hclamp]
    dsimp only
    rw [hval]
    dsimp only
    rw [happly]
  · rw [show (((0 : ℝ) + 0 * (1 / 20)) - 0) ^ 2 + (((0 : ℝ) + 0 * (1 / 20)) - 0) ^ 2 +
      (((0 : ℝ) + (-8) * (1 / 20)) - 0) ^ 2 = (2 / 5 : ℝ) ^ 2 by norm_num]
    exact Real.sqrt_sq (by norm_num)

theorem alookup_cons {α : Type} (k k' : ℕ) (v : α) (rest : List (ℕ × α)) :
    alookup k ((k', v) :: rest) = if k' = k then some v else alookup k rest := rfl

theorem aupdate_cons {α : Type} (k : ℕ) (f : α → α) (k' : ℕ) (v : α) (rest : List (ℕ × α)) :
    aupdate k f ((k', v) :: rest) =
      (if k' = k then (k', f v) else (k', v)) :: aupdate k f rest := rfl

theorem alookup_aupdate_self {α : Type} (k : ℕ) (f : α → α) (l : List (ℕ × α)) :
    alookup k (aupdate k f l) = (alookup k l).map f := by
  induction l with
  | nil => rfl
  | cons p rest ih =>
    obtain ⟨k', v⟩ := p
    rw [aupdate_cons]
    by_cases hk : k' = k
    · simp only [if_pos hk, alookup_cons, Option.map_some']
    · simp only [if_neg hk, alookup_cons]
      exact ih

theorem alookup_aupdate_ne {α : Type} (k k' : ℕ) (f : α → α) (l : List (ℕ × α))
    (h : k' ≠ k) : alookup k' (aupdate k f l) = alookup k' l := by
  induction l with
  | nil => rfl
  | cons p rest ih =>
    obtain ⟨k'', v⟩ := p
    rw [aupdate_cons]
    by_cases hk : k'' = k
    · have hne : ¬ (k'' = k') := by
        intro hc
        exact h (hc ▸ hk)
      rw [if_pos hk, alookup_cons, alookup_cons, if_neg hne, if_neg hne, ih]
    · by_cases hk2 : k'' = k'
      · rw [if_neg hk, alookup_cons, alookup_cons, if_pos hk2, if_pos hk2]
      · rw [if_neg hk, alookup_cons, alookup_cons, if_neg hk2, if_neg hk2, ih]

theorem alookup_append_self {α : Type} (k : ℕ) (v : α) (l : List (ℕ × α))
    (hnone : alookup k l = none) : alookup k (l ++ [(k, v)]) = some v := by
  induction l with
  | nil => simp [alookup]
  | cons p rest ih =>
    obtain ⟨k', w⟩ := p
    rw [alookup_cons] at hnone
    rw [List.cons_append, alookup_cons]
    by_cases hk : k' = k
    · rw [if_pos hk] at hnone
      exact absurd hnone (by simp)
    · rw [if_neg hk] at hnone
      rw [if_neg hk]
      exact ih hnone

theorem alookup_append_ne {α : Type} (k k' : ℕ) (v : α) (l : List (ℕ × α))
    (h : k' ≠ k) : alookup k' (l ++ [(k, v)]) = alookup k' l := by
  have hne : ¬ (k = k') := fun hc => h hc.symm
  induction l with
  | nil => simp [alookup, hne]
  | cons p rest ih =>
    obtain ⟨k'', w⟩ := p
    rw [List.cons_append, alookup_cons, alookup_cons]
    by_cases hk2 : k'' = k'
    · rw [if_pos hk2, if_pos hk2]
    · rw [if_neg hk2, if_neg hk2, ih]

theorem alookup_ainsert_self {α : Type} (k : ℕ) (v : α) (l : List (ℕ × α)) :
    alookup k (ainsert k v l) = some v := by
  unfold ainsert
  split
  · rename_i hsome
    rw [alookup_aupdate_self]
    rcases hl : alookup k l with _ | w
    · rw [hl] at hsome
      simp at hsome
    · rfl
  · rename_i hnone
    rcases hl : alookup k l with _ | w
    · exact alookup_append_self k v l hl
    · rw [hl] at hnone
      simp at hnone

theorem alookup_ainsert_ne {α : Type} (k k' : ℕ) (v : α) (l : List (ℕ × α))
    (h : k' ≠ k) : alookup k' (ainsert k v l) = alookup k' l := by
  unfold ainsert
  split
  · exact alookup_aupdate_ne k k' _ l h
  · exact alookup_append_ne k k' v l h

theorem mem_sinsert_self (k : ℕ) (l : List ℕ) : k ∈ sinsert k l := by
  unfold sinsert
  split
  · rename_i hc
    simpa using hc
  · exact List.mem_cons_self k l

theorem not_mem_sremove_self (k : ℕ) (l : List ℕ) : k ∉ sremove k l := by
  unfold sremove
  intro hmem
  have := List.of_mem_filter hmem
  simp at this

/-- Claim C10: on first sight of an entity the snapshot baseline is seeded
with its pose and the entity is omitted (and is omitted again while the
pose is unchanged); afterwards the entity is included exactly when its pose
differs from the baseline by more than 0.05 on a position axis or 0.01 rad
in yaw, and only then is the baseline overwritten. -/
theorem c10_snapshot (baseline : List (ℕ × (ℝ × ℝ × ℝ × ℝ))) (e : Entity) (p : Position)
    (hp : e.position = some p) :
    (alookup e.id baseline = none →
      snapshotStep baseline e = (ainsert e.id (poseOf p) baseline, false) ∧
      (snapshotStep (ainsert e.id (poseOf p) baseline) e).2 = false) ∧
    (∀ b, alookup e.id baseline = some b →
      ((snapshotStep baseline e).2 = true ↔ poseBeyondEps p b) ∧
      (poseBeyondEps p b →
        (snapshotStep baseline e).1 = aupdate e.id (fun _ => poseOf p) baseline) ∧
      (¬ poseBeyondEps p b → snapshotStep baseline e = (baseline, false))) := by
  have hself : ¬ poseBeyondEps p (poseOf p) := by
    unfold poseBeyondEps poseOf posEpsilon rotEpsilon
    push_neg
    norm_num
  constructor
  · intro hnone
    constructor
    · unfold snapshotStep
      rw [hp]
      dsimp only
      rw [hnone]
    · unfold snapshotStep
      rw [hp]
      dsimp only
      rw [alookup_ainsert_self]
      dsimp only
      rw [if_neg hself]
  · intro b hb
    unfold snapshotStep
    rw [hp]
    dsimp only
    rw [hb]
    dsimp only
    by_cases hbe : poseBeyondEps p b
    · rw [if_pos hbe]
      exact ⟨by simp [hbe], fun _ => rfl, fun hn => absurd hbe hn⟩
    · rw [if_neg hbe]
      exact ⟨by simp [hbe], fun hc => absurd hc hbe, fun _ => rfl⟩

/-- Witness for C10 on the concrete entity at the origin and an empty
baseline. -/
theorem c10_witness :
    snapshotStep [] mvEntity = ([(1, ((0 : ℝ), (0 : ℝ), (0 : ℝ), (0 : ℝ)))], false) ∧
    (snapshotStep [(1, ((0 : ℝ), (0 : ℝ), (0 : ℝ), (0 : ℝ)))] mvEntity).2 = false := by
  have h := (c10_snapshot [] mvEntity ⟨0, 0, 0, 0⟩ rfl).1 rfl
  exact ⟨h.1, h.2⟩

theorem updateEntity_health (mgr : List (ℕ × Entity)) (e : Entity) (dt : ℝ) :
    (updateEntity mgr e dt).health =
      match e.health with
      | none => none
      | some h =>
        if h.current < h.maximum then
          some ⟨min (h.current + ⌊h.regenerationRate * dt⌋₊) h.maximum, h.maximum,
                h.regenerationRate⟩
        else some h := by
  rcases e with ⟨id, ty, nm, pos, hl, mv, cb, ai⟩
  unfold updateEntity
  rcases hl with _ | hh
  · dsimp only
    repeat' split
    all_goals simp [updateAi_health]
  · dsimp only
    by_cases hR : hh.current < hh.maximum
    · rw [if_pos hR, if_pos hR]
      dsimp only
      repeat' split
      all_goals simp [updateAi_health]
    · rw [if_neg hR, if_neg hR]
      dsimp only
      repeat' split
      all_goals simp [updateAi_health]

/-- The entity record spawn_player_entity stores: Entity::new_player with
the pose and health fields overwritten from the request. -/

theorem spawnPlayerEntity_ok (w : WorldState) (name zoneLabel : String) (pos : ℝ × ℝ × ℝ)
    (rot : ℝ) (h : ℤ × ℤ) (zone : Zone)
    (hz : alookup (w.resolveZoneId zoneLabel) w.zones = some zone) :
    w.spawnPlayerEntity name zoneLabel pos rot h =
      .ok (zone.entities.nextId,
        { w with
          zones := aupdate (w.resolveZoneId zoneLabel)
            (fun _ => Zone.addPlayer
              { zone with entities :=
                ⟨ainsert zone.entities.nextId
                    (spawnedPlayer zone.entities.nextId name pos rot h) zone.entities.entities,
                  zone.entities.nextId + 1⟩ }
              zone.entities.nextId) w.zones
          playerZoneMap := ainsert zone.entities.nextId (w.resolveZoneId zoneLabel)
            w.playerZoneMap }) := by
  unfold WorldState.spawnPlayerEntity
  dsimp only
  rw [hz]
  simp only [Entity.newPlayer, EntityManager.generateId, EntityManager.addEntity,
    Zone.addPlayer, spawnedPlayer]

/-- Claim C6 (amended): after spawn_player_entity with requested current at
most requested maximum the stored health satisfies current <= maximum, and
both the update regeneration step and apply_damage preserve
current <= maximum (current is a u32, so 0 <= current always holds). -/
theorem c6_amended :
    (∀ (w : WorldState) (name zoneLabel : String) (pos : ℝ × ℝ × ℝ) (rot : ℝ)
      (h : ℤ × ℤ) (eid : ℕ) (w' : WorldState), h.1 ≤ h.2 →
      w.spawnPlayerEntity name zoneLabel pos rot h = .ok (eid, w') →
      ∃ zid z e, alookup eid w'.playerZoneMap = some zid ∧
        alookup zid w'.zones = some z ∧ alookup eid z.entities.entities = some e ∧
        ∃ hh, e.health = some hh ∧ hh.current ≤ hh.maximum) ∧
    (∀ (mgr : List (ℕ × Entity)) (e : Entity) (dt : ℝ) (h h' : Health),
      e.health = some h → h.current ≤ h.maximum →
      (updateEntity mgr e dt).health = some h' → h'.current ≤ h'.maximum) ∧
    (∀ (t : Entity) (damage : ℕ) (h h' : Health),
      t.health = some h → h.current ≤ h.maximum →
      (applyDamage t damage).1.health = some h' → h'.current ≤ h'.maximum) := by
  refine ⟨?_, ?_, ?_⟩
  · intro w name zoneLabel pos rot h eid w' hle hsp
    rcases hz : alookup (w.resolveZoneId zoneLabel) w.zones with _ | zone
    · unfold WorldState.spawnPlayerEntity at hsp
      dsimp only at hsp
      rw [hz] at hsp
      exact absurd hsp (by simp)
    · rw [spawnPlayerEntity_ok w name zoneLabel pos rot h zone hz] at hsp
      rw [Except.ok.injEq, Prod.mk.injEq] at hsp
      obtain ⟨rfl, rfl⟩ := hsp
      refine ⟨w.resolveZoneId zoneLabel,
        Zone.addPlayer
          { zone with entities :=
            ⟨ainsert zone.entities.nextId
                (spawnedPlayer zone.entities.nextId name pos rot h) zone.entities.entities,
              zone.entities.nextId + 1⟩ }
          zone.entities.nextId,
        spawnedPlayer zone.entities.nextId name pos rot h,
        alookup_ainsert_self _ _ _, ?_, ?_,
        ⟨(max h.1 0).toNat, (max h.2 1).toNat, 1⟩, rfl, ?_⟩
      · dsimp only
        rw [alookup_aupdate_self, hz]
        rfl
      · exact alookup_ainsert_self _ _ _
      · exact Int.toNat_le_toNat (max_le_max hle (by norm_num))
  · intro mgr e dt h h' he hinv hupd
    rw [updateEntity_health, he] at hupd
    dsimp only at hupd
    by_cases hR : h.current < h.maximum
    · rw [if_pos hR] at hupd
      obtain rfl := Option.some.inj hupd
      exact min_le_right _ _
    · rw [if_neg hR] at hupd
      obtain rfl := Option.some.inj hupd
      exact hinv
  · intro t damage h h' ht hinv hd
    unfold applyDamage at hd
    rw [ht] at hd
    dsimp only at hd
    by_cases hc : h.current ≤ damage
    · rw [if_pos hc] at hd
      obtain rfl := Option.some.inj hd
      exact Nat.zero_le _
    · rw [if_neg hc] at hd
      obtain rfl := Option.some.inj hd
      exact le_trans (Nat.sub_le _ _) hinv

/-- Witness for C6 (amended): a spawn with health (50, 100), one
regeneration step, and one damage application. -/
theorem c6_witness :
    (∃ zid z e, alookup 4 c6World.playerZoneMap = some zid ∧
      alookup zid c6World.zones = some z ∧ alookup 4 z.entities.entities = some e ∧
      ∃ hh, e.health = some hh ∧ hh.current ≤ hh.maximum) ∧
    ((⟨5, 100, 1⟩ : Health).current ≤ (⟨5, 100, 1⟩ : Health).maximum) ∧
    ((⟨0, 100, 1⟩ : Health).current ≤ (⟨0, 100, 1⟩ : Health).maximum) := by
  refine ⟨?_, ?_, ?_⟩
  · exact c6_amended.1 WorldState.new "Hero" "1" (0, 0, 0) 0 (50, 100) 4 c6World
      (by norm_num) rfl
  · have hupd : (updateEntity []
        ⟨1, .player, "E", none, some ⟨5, 100, 1⟩, none, none, none⟩ (1 / 20)).health =
        some ⟨5, 100, 1⟩ := by
      rw [updateEntity_health]
      have h1 : (⌊(1 : ℝ) * (1 / 20)⌋₊ : ℕ) = 0 := Nat.floor_eq_zero.mpr (by norm_num)
      have h2 : (⌊(1 : ℝ) / 20⌋₊ : ℕ) = 0 := Nat.floor_eq_zero.mpr (by norm_num)
      norm_num [h1, h2]
    exact c6_amended.2.1 [] ⟨1, .player, "E", none, some ⟨5, 100, 1⟩, none, none, none⟩
      (1 / 20) ⟨5, 100, 1⟩ ⟨5, 100, 1⟩ rfl (by norm_num) hupd
  · exact c6_amended.2.2 ⟨1, .player, "E", none, some ⟨5, 100, 1⟩, none, none, none⟩
      10 ⟨5, 100, 1⟩ ⟨0, 100, 1⟩ rfl (by norm_num) rfl

/-- Claim C8 (amended): ids drawn from ONE zone manager are the
consecutive values of its counter, strictly increasing and never reused by
that manager; managers of different zones count independently. -/
theorem c8_amended (m : EntityManager) (n : ℕ) :
    genIds m n = (List.range n).map (fun i => m.nextId + i) ∧
    (genIds m n).Pairwise (· < ·) := by
  have key : ∀ (k : ℕ) (mm : EntityManager),
      genIds mm k = (List.range k).map (fun i => mm.nextId + i) := by
    intro k
    induction k with
    | zero => intro mm; rfl
    | succ j ih =>
      intro mm
      rw [show genIds mm (j + 1) =
        mm.nextId :: genIds ⟨mm.entities, mm.nextId + 1⟩ j from rfl]
      rw [ih, List.range_succ_eq_map, List.map_cons, List.map_map]
      refine congrArg₂ _ (by omega) ?_
      refine List.map_congr_left ?_
      intro i _
      simp [Function.comp]
      omega
  refine ⟨key n m, ?_⟩
  rw [key n m]
  rw [List.pairwise_map]
  exact (List.pairwise_lt_range n).imp fun hab => by omega

/-- Counterexample to C8 as stated: the first player spawned into zone 2
receives id 1, already carried by the Goblin in zone 1, so two entities in
different zones share an id. -/
theorem c8_counterexample :
    (WorldState.new.spawnPlayerEntity "Dup" "2" (0, 0, 0) 0 (100, 100)).toOption.map
      Prod.fst = some 1 ∧
    ((alookup 1 c8World.zones).map fun z =>
      (alookup 1 z.entities.entities).map Entity.name) = some (some "Goblin") ∧
    ((alookup 2 c8World.zones).map fun z =>
      (alookup 1 z.entities.entities).map Entity.name) = some (some "Dup") :=
  ⟨rfl, rfl, rfl⟩

/-- Claim C7 (amended): a zone transition moves the player id from the
source active set to the destination active set and rewrites the map, and
teleports the entity inside the SOURCE store; the entity record is not
moved between stores, so the destination store is unchanged. -/
theorem c7_amended (w : WorldState) (pid a b : ℕ) (pos : ℝ × ℝ × ℝ) (za zb : Zone)
    (hab : a ≠ b)
    (hmap : alookup pid w.playerZoneMap = some a)
    (hza : alookup a w.zones = some za)
    (hzb : alookup b w.zones = some zb) :
    ∃ w', w.movePlayerToZoneWithPosition pid b pos = .ok w' ∧
      (∃ zb', alookup b w'.zones = some zb' ∧
        zb'.activePlayers = sinsert pid zb.activePlayers ∧
        pid ∈ zb'.activePlayers ∧
        zb'.entities = zb.entities) ∧
      (∃ za', alookup a w'.zones = some za' ∧
        za'.activePlayers = sremove pid za.activePlayers ∧
        pid ∉ za'.activePlayers ∧
        za'.entities.entities = aupdate pid
          (fun e => match e.position with
            | some q => { e with position := some ⟨pos.1, pos.2.1, pos.2.2, q.rotation⟩ }
            | none => e) za.entities.entities) ∧
      alookup pid w'.playerZoneMap = some b := by
  have hba : b ≠ a := fun hc => hab hc.symm
  unfold WorldState.movePlayerToZoneWithPosition
  dsimp only
  rw [hmap]
  dsimp only
  rw [hza]
  dsimp only
  rw [alookup_aupdate_ne a b _ w.zones hba, hzb]
  dsimp only
  refine ⟨_, rfl, ?_, ?_, ?_⟩
  · refine ⟨zb.addPlayer pid, ?_, rfl, mem_sinsert_self pid zb.activePlayers, rfl⟩
    rw [alookup_aupdate_self, alookup_aupdate_ne a b _ w.zones hba, hzb]
    rfl
  · refine ⟨⟨za.id, za.name, za.bounds,
      ⟨aupdate pid
        (fun e => match e.position with
          | some q => { e with position := some ⟨pos.1, pos.2.1, pos.2.2, q.rotation⟩ }
          | none => e) za.entities.entities, za.entities.nextId⟩,
      sremove pid za.activePlayers⟩, ?_, rfl, not_mem_sremove_self pid _, rfl⟩
    rw [alookup_aupdate_ne b a _ _ hab, alookup_aupdate_self, hza]
    rfl
  · exact alookup_ainsert_self pid b _

/-- Witness for C7 (amended) on a small two-zone world. -/
theorem c7_witness :
    ∃ w', (⟨[(1, ⟨1, "A", ⟨0, 0, 0, 0, 0, 0⟩, ⟨[], 1⟩, [7]⟩),
             (2, ⟨2, "B", ⟨0, 0, 0, 0, 0, 0⟩, ⟨[], 1⟩, []⟩)],
            [(7, 1)], [], []⟩ : WorldState).movePlayerToZoneWithPosition 7 2
        (-95, 0, 0) = .ok w' ∧
      (∃ zb', alookup 2 w'.zones = some zb' ∧
        zb'.activePlayers = sinsert 7 ([] : List ℕ) ∧
        7 ∈ zb'.activePlayers ∧
        zb'.entities = (⟨[], 1⟩ : EntityManager)) ∧
      (∃ za', alookup 1 w'.zones = some za' ∧
        za'.activePlayers = sremove 7 [7] ∧
        7 ∉ za'.activePlayers ∧
        za'.entities.entities = aupdate 7
          (fun e => match e.position with
            | some q => { e with position := some ⟨(-95 : ℝ), 0, 0, q.rotation⟩ }
            | none => e) ([] : List (ℕ × Entity))) ∧
      alookup 7 w'.playerZoneMap = some 2 :=
  c7_amended ⟨[(1, ⟨1, "A", ⟨0, 0, 0, 0, 0, 0⟩, ⟨[], 1⟩, [7]⟩),
               (2, ⟨2, "B", ⟨0, 0, 0, 0, 0, 0⟩, ⟨[], 1⟩, []⟩)],
              [(7, 1)], [], []⟩ 7 1 2 ((-95 : ℝ), 0, 0)
    ⟨1, "A", ⟨0, 0, 0, 0, 0, 0⟩, ⟨[], 1⟩, [7]⟩
    ⟨2, "B", ⟨0, 0, 0, 0, 0, 0⟩, ⟨[], 1⟩, []⟩
    (by norm_num) rfl rfl rfl

theorem c7World_eval :
    c7World =
      ⟨[(2, ⟨2, "Second Zone", ⟨-150, 100, -10, 50, -100, 100⟩, ⟨[], 1⟩, []⟩),
        (1, ⟨1, "Starter Zone", ⟨-100, 100, -10, 50, -100, 100⟩,
          ⟨[(1, ⟨1, .mob, "Goblin", some ⟨15, 0, 15, 0⟩, some ⟨70, 70, 0.5⟩,
              some ⟨0, 0, 0, 3, 6, false⟩, some ⟨7, 3, 1.5, 0.8, 0⟩,
              some ⟨.idle, 8, 25, (15, 0, 15), 0⟩⟩),
            (2, ⟨2, .mob, "Orc", some ⟨-15, 0, 15, 0⟩, some ⟨70, 70, 0.5⟩,
              some ⟨0, 0, 0, 3, 6, false⟩, some ⟨7, 3, 1.5, 0.8, 0⟩,
              some ⟨.idle, 8, 25, (-15, 0, 15), 0⟩⟩),
            (3, ⟨3, .mob, "Wolf", some ⟨0, 0, 25, 0⟩, some ⟨70, 70, 0.5⟩,
              some ⟨0, 0, 0, 3, 6, false⟩, some ⟨7, 3, 1.5, 0.8, 0⟩,
              some ⟨.idle, 8, 25, (0, 0, 25), 0⟩⟩),
            (4, ⟨4, .player, "Hero", some ⟨96, 0, 0, 0⟩, some ⟨100, 100, 1⟩,
              some ⟨0, 0, 0, 5, 8, false⟩, some ⟨10, 5, 2, 1, 0⟩, none⟩)], 5⟩,
          [4]⟩)],
       [(4, 1)], [], []⟩ := rfl

/-- Counterexample to C7 as stated: after the x = 96 player transitions
from zone 1 to zone 2, zone 2 lists the player as active but its store has
no entity for it, violating the active-players invariant. -/
theorem c7_counterexample :
    ((alookup 1 c7World.zones).map Zone.activePlayers) = some [4] ∧
    ((alookup 1 c7World.zones).map fun z =>
      (alookup 4 z.entities.entities).isSome) = some true ∧
    ((alookup 2 (WorldState.checkZoneTransitions c7World).zones).map
      Zone.activePlayers) = some [4] ∧
    ((alookup 2 (WorldState.checkZoneTransitions c7World).zones).map fun z =>
      alookup 4 z.entities.entities) = some none := by
  refine ⟨by rw [c7World_eval]; rfl, by rw [c7World_eval]; rfl, ?_, ?_⟩ <;>
  · rw [c7World_eval]
    unfold WorldState.checkZoneTransitions
    norm_num [alookup, aupdate, ainsert, sinsert, sremove,
      WorldState.movePlayerToZoneWithPosition, Zone.addPlayer, Zone.removePlayer]

/-- Counterexample to C6 as stated: spawning with requested health
(100, 50) stores current = 100 above maximum = 50. -/
theorem c6_counterexample :
    ((alookup 1 c6BadWorld.zones).map fun z =>
      (alookup 4 z.entities.entities).bind Entity.health) =
      some (some ⟨100, 50, 1⟩) ∧
    ¬ ((100 : ℕ) ≤ 50) :=
  ⟨rfl, by norm_num⟩

end MMO
